import Mathlib

/-!
Verification development for the PlayGodot automation client and the
tic-tac-toe example game of the Godot-Claude-Skills repository.

The repository ships the consuming surface of the automation client
(pytest suites and demo scripts under `example-project/tests/` and
`run_game_demo.py`); the client itself and the game script are described
by the design specification and pinned by the assertions of those tests.
The definitions below are a shallow embedding of that system: scene-tree
lookup and queries, time-scale control, the condition-waiter polling
core, and the tic-tac-toe game state machine.
-/

namespace PlayGodot

/-- Modelled from the spec: the error taxonomy of §7.  `nodeNotFound`,
`propertyNotFound`, `methodError` and `invalidTimeScale` are
operation-level (recoverable); `sessionLost` and `connectionClosed` are
transport/session-level (terminal); `waitTimeout` is the polling-level
failure; `conditionNotMet` stands for an underlying check of the
Condition Waiter reporting "condition not yet true". -/
inductive AutoError where
  | nodeNotFound
  | propertyNotFound
  | methodError
  | invalidTimeScale
  | conditionNotMet
  | waitTimeout
  | sessionLost
  | connectionClosed
deriving DecidableEq, Repr

/-- Modelled from the spec: transport/session-level failures are the
terminal ones that the Condition Waiter must propagate immediately
(§7 propagation policy). -/
def isFatal : AutoError → Bool
  | .sessionLost => true
  | .connectionClosed => true
  | _ => false

/-- A node of the target's live scene graph: hierarchical path plus
resolved type/class tag (§3 NodeRef). -/
structure NodeInfo where
  path : String
  className : String
deriving DecidableEq, Repr

/-- Modelled from the spec: the target's scene tree as observed through
the debug channel — the finite collection of addressable nodes at the
time of a call (the implementation that answers node queries lives in
the Godot automation fork, not in this repository). -/
structure SceneTree where
  nodes : List NodeInfo
deriving DecidableEq, Repr

/-- An addressable handle returned by `getNode` (§3 NodeRef). -/
structure NodeRef where
  path : String
  className : String
deriving DecidableEq, Repr

/-- Look a node up by exact path in the live tree. -/
def findNode (t : SceneTree) (p : String) : Option NodeInfo :=
  t.nodes.find? (fun n => n.path == p)

/-- Modelled from the spec: `nodeExists(path)` returns a boolean and
never fails — false on absence (§4.4 table). -/
def nodeExists (t : SceneTree) (p : String) : Bool :=
  (findNode t p).isSome

/-- Modelled from the spec: `getNode(path)` requires a non-empty path
and resolves it against the live tree, returning a `NodeRef` on success
and `NodeNotFound` on failure (§4.4 table). -/
def getNode (t : SceneTree) (p : String) : Except AutoError NodeRef :=
  if p = "" then Except.error AutoError.nodeNotFound
  else
    match findNode t p with
    | some n => Except.ok { path := n.path, className := n.className }
    | none => Except.error AutoError.nodeNotFound

/-- Glob matching over character lists: `*` matches any (possibly
empty) run of characters, every other character matches itself
(§6 node addressing: glob-style patterns of shape `*token*`). -/
def globMatch : List Char → List Char → Bool
  | [], [] => true
  | [], _ :: _ => false
  | '*' :: ps, [] => globMatch ps []
  | '*' :: ps, c :: cs => globMatch ps (c :: cs) || globMatch ('*' :: ps) cs
  | _ :: _, [] => false
  | p :: ps, c :: cs => p == c && globMatch ps cs
termination_by ps cs => (ps.length, cs.length)

/-- Whether a node path matches a glob pattern. -/
def patMatch (pat s : String) : Bool :=
  globMatch pat.toList s.toList

/-- Modelled from the spec: `queryNodes(globPattern)` returns the
ordered, finite sequence of matching node paths, snapshot at call time;
it never fails and returns the empty sequence on no match, also for the
empty pattern (§4.4 table). -/
def queryNodes (t : SceneTree) (pat : String) : List String :=
  (t.nodes.map NodeInfo.path).filter (patMatch pat)

/-- Modelled from the spec: `countNodes(pattern)` counts the nodes
matching the pattern; it never fails (§4.4 table). -/
def countNodes (t : SceneTree) (pat : String) : Nat :=
  (t.nodes.map NodeInfo.path).countP (patMatch pat)

/-- Engine-side state observable through the game-state control
operations (§4.4: pause and time-scale control). -/
structure EngineState where
  timeScale : ℚ
  paused : Bool
deriving DecidableEq, Repr

/-- The engine state a freshly launched target starts in. -/
def defaultEngine : EngineState := { timeScale := 1, paused := false }

/-- Modelled from the spec: `setTimeScale(factor)` requires
`factor > 0`; it fails with `InvalidTimeScale` if `factor ≤ 0`, leaving
the engine state untouched, and otherwise stores the factor (§4.4
table, §8 round-trip property). -/
def setTimeScale (s : EngineState) (factor : ℚ) :
    Except AutoError Unit × EngineState :=
  if factor ≤ 0 then (Except.error AutoError.invalidTimeScale, s)
  else (Except.ok (), { s with timeScale := factor })

/-- Modelled from the spec: `getTimeScale()` reports the current
time-scale factor (§4.4 table). -/
def getTimeScale (s : EngineState) : ℚ :=
  s.timeScale

/-- Modelled from the spec: the number of inter-poll sleeps the
Condition Waiter performs before the deadline check fires.  Checks run
at elapsed times `0, d, 2·d, …`; after a failed check at elapsed time
`k·d` the waiter raises `WaitTimeout` once `k·d ≥ T`, so a zero or
negative timeout allows no sleep at all and a positive timeout allows
`⌈T / d⌉` of them (§4.5). -/
def numSleeps (T d : ℚ) : Nat :=
  if T ≤ 0 then 0 else (Int.ceil (T / d)).toNat

/-- Modelled from the spec: the shared polling core of the `wait_for_*`
primitives (§4.5, §7).  `check k` is the underlying check at poll
number `k`; a successful check ends the wait, a transport/session-level
failure propagates immediately, any other failure is treated as "not
yet true" and retried after the inter-poll delay until the sleep budget
is spent, at which point `WaitTimeout` is raised.  The second component
records the poll index at which the loop stopped. -/
def waitAux {α : Type} (check : Nat → Except AutoError α) :
    Nat → Nat → Except AutoError α × Nat
  | 0, k =>
    match check k with
    | Except.ok a => (Except.ok a, k)
    | Except.error e =>
      if isFatal e then (Except.error e, k)
      else (Except.error AutoError.waitTimeout, k)
  | r + 1, k =>
    match check k with
    | Except.ok a => (Except.ok a, k)
    | Except.error e =>
      if isFatal e then (Except.error e, k)
      else waitAux check r (k + 1)

/-- Run the polling core with timeout `T` and poll interval `d`,
returning the outcome together with the elapsed time at which the loop
returned or raised. -/
def waitFor {α : Type} (check : Nat → Except AutoError α) (T d : ℚ) :
    Except AutoError α × ℚ :=
  ((waitAux check (numSleeps T d) 0).1,
    ((waitAux check (numSleeps T d) 0).2 : ℚ) * d)

/-- The number of checks a `wait_for_*` call performs. -/
def checksDone {α : Type} (check : Nat → Except AutoError α) (T d : ℚ) : Nat :=
  (waitAux check (numSleeps T d) 0).2 + 1

/-- Modelled from the spec: the underlying check of
`waitForCondition` — re-invoke the caller's predicate from scratch on
every poll; a false predicate is "condition not yet true" (§4.5). -/
def predCheck (pred : Nat → Bool) (k : Nat) : Except AutoError Unit :=
  if pred k then Except.ok () else Except.error AutoError.conditionNotMet

/-- Modelled from the spec: `waitForCondition(predicate, timeout)` with
poll interval `d` (§4.5). -/
def waitForCondition (pred : Nat → Bool) (T d : ℚ) :
    Except AutoError Unit × ℚ :=
  waitFor (predCheck pred) T d

/-- If every check fails with the same non-fatal error, the polling
core spends its whole sleep budget and raises `WaitTimeout` at the poll
index equal to that budget. -/
theorem waitAux_all_fail {α : Type} (check : Nat → Except AutoError α)
    (e₀ : AutoError) (h : ∀ j, check j = Except.error e₀)
    (hf : isFatal e₀ = false) :
    ∀ r k, waitAux check r k = (Except.error AutoError.waitTimeout, k + r) := by
  intro r
  induction r with
  | zero => intro k; simp [waitAux, h k, hf]
  | succ r ih =>
    intro k
    have := ih (k + 1)
    simp only [waitAux, h k, hf, Bool.false_eq_true, if_false]
    rw [this]
    congr 1
    omega

/-- With an exhausted sleep budget the polling core stops at the very
poll it starts from, whatever the check returns. -/
theorem waitAux_zero_stops {α : Type} (check : Nat → Except AutoError α)
    (k : Nat) : (waitAux check 0 k).2 = k := by
  unfold waitAux
  cases check k with
  | ok a => rfl
  | error e =>
    by_cases hf : isFatal e = true
    · simp [hf]
    · simp [hf]

/-- C5: with poll interval `d > 0`, if the predicate never becomes true
and the timeout `T` is positive, `waitForCondition` raises
`WaitTimeout` at an elapsed time no earlier than `T` and no later than
`T` plus one poll interval; and a zero or negative timeout performs
exactly one check. -/
theorem waitForCondition_timeout (pred : Nat → Bool) (T d : ℚ)
    (hd : 0 < d) :
    ((∀ k, pred k = false) → 0 < T →
      (waitForCondition pred T d).1 = Except.error AutoError.waitTimeout ∧
        T ≤ (waitForCondition pred T d).2 ∧
        (waitForCondition pred T d).2 ≤ T + d) ∧
      (T ≤ 0 → checksDone (predCheck pred) T d = 1) := by
  constructor
  · intro hnever hT
    have hcheck : ∀ j, predCheck pred j = Except.error AutoError.conditionNotMet := by
      intro j; simp [predCheck, hnever j]
    have hrun := waitAux_all_fail (predCheck pred) AutoError.conditionNotMet
      hcheck (by rfl) (numSleeps T d) 0
    have hns : numSleeps T d = (Int.ceil (T / d)).toNat := by
      unfold numSleeps
      rw [if_neg (not_le.mpr hT)]
    have hceil_pos : 0 < Int.ceil (T / d) := by
      rw [Int.ceil_pos]
      exact div_pos hT hd
    have hcast : ((numSleeps T d : Nat) : ℚ) = ((Int.ceil (T / d) : ℤ) : ℚ) := by
      rw [hns]
      norm_cast
      exact Int.toNat_of_nonneg (le_of_lt hceil_pos)
    have hlow : T ≤ ((Int.ceil (T / d) : ℤ) : ℚ) * d := by
      have h1 : T / d ≤ ((Int.ceil (T / d) : ℤ) : ℚ) := Int.le_ceil _
      calc T = T / d * d := by field_simp
        _ ≤ ((Int.ceil (T / d) : ℤ) : ℚ) * d :=
            mul_le_mul_of_nonneg_right h1 (le_of_lt hd)
    have hhigh : ((Int.ceil (T / d) : ℤ) : ℚ) * d ≤ T + d := by
      have h1 : ((Int.ceil (T / d) : ℤ) : ℚ) < T / d + 1 := Int.ceil_lt_add_one _
      have h2 : ((Int.ceil (T / d) : ℤ) : ℚ) * d < (T / d + 1) * d :=
        mul_lt_mul_of_pos_right h1 hd
      have h3 : (T / d + 1) * d = T + d := by field_simp
      linarith
    unfold waitForCondition waitFor
    rw [hrun]
    simp only [Nat.zero_add]
    refine ⟨by trivial, ?_, ?_⟩
    · rw [hcast]; exact hlow
    · rw [hcast]; exact hhigh
  · intro hT
    have hns : numSleeps T d = 0 := by
      unfold numSleeps
      rw [if_pos hT]
    unfold checksDone
    rw [hns, waitAux_zero_stops]

/-- Witness for C5: the always-false predicate with timeout 1 and poll
interval 1/2 times out within the bounds, and with timeout 0 the wait
performs exactly one check. -/
theorem waitForCondition_timeout_witness :
    ((waitForCondition (fun _ => false) 1 (1 / 2)).1 =
        Except.error AutoError.waitTimeout ∧
      (1 : ℚ) ≤ (waitForCondition (fun _ => false) 1 (1 / 2)).2 ∧
      (waitForCondition (fun _ => false) 1 (1 / 2)).2 ≤ 1 + 1 / 2) ∧
    checksDone (predCheck (fun _ => false)) 0 (1 / 2) = 1 :=
  ⟨(waitForCondition_timeout (fun _ => false) 1 (1 / 2) (by norm_num)).1
      (fun _ => rfl) (by norm_num),
    (waitForCondition_timeout (fun _ => false) 0 (1 / 2) (by norm_num)).2
      (by norm_num)⟩

/-- C6: the polling core never surfaces an operation-level failure of
its underlying check: every error it returns is either a
transport/session-level failure or `WaitTimeout`; and a
transport/session-level failure of the current check propagates
immediately, regardless of the remaining sleep budget. -/
theorem waitAux_error_policy (α : Type) (check : Nat → Except AutoError α)
    (r k : Nat) :
    (∀ e : AutoError, (waitAux check r k).1 = Except.error e →
        isFatal e = true ∨ e = AutoError.waitTimeout) ∧
      (∀ e : AutoError, check k = Except.error e → isFatal e = true →
        (waitAux check r k).1 = Except.error e) := by
  constructor
  · induction r generalizing k with
    | zero =>
      intro e he
      simp only [waitAux] at he
      cases hc : check k with
      | ok a => rw [hc] at he; simp at he
      | error e₁ =>
        rw [hc] at he
        by_cases hf : isFatal e₁ = true
        · simp [hf] at he
          exact Or.inl (he ▸ hf)
        · simp [hf] at he
          exact Or.inr he.symm
    | succ r ih =>
      intro e he
      simp only [waitAux] at he
      cases hc : check k with
      | ok a => rw [hc] at he; simp at he
      | error e₁ =>
        rw [hc] at he
        by_cases hf : isFatal e₁ = true
        · simp [hf] at he
          exact Or.inl (he ▸ hf)
        · simp only [hf, Bool.false_eq_true, if_false] at he
          exact ih (k + 1) e he
  · intro e hc hf
    cases r <;> simp [waitAux, hc, hf]

/-- Witness for C6: a check that always reports a missing node is never
surfaced as `NodeNotFound` (the wait times out instead), while a check
hitting a lost session propagates `SessionLost` at once. -/
theorem waitAux_error_policy_witness :
    (isFatal AutoError.waitTimeout = true ∨
      AutoError.waitTimeout = AutoError.waitTimeout) ∧
    (@waitAux Unit (fun _ => Except.error AutoError.sessionLost) 3 0).1 =
      Except.error AutoError.sessionLost :=
  ⟨(waitAux_error_policy Unit (fun _ => Except.error AutoError.nodeNotFound)
        2 0).1 AutoError.waitTimeout (by rfl),
    (waitAux_error_policy Unit (fun _ => Except.error AutoError.sessionLost)
        3 0).2 AutoError.sessionLost rfl rfl⟩

/-- A concrete scene tree shaped like the example project's layout,
used to instantiate the general theorems. -/
def sampleTree : SceneTree :=
  { nodes :=
      [ { path := "/root/Game", className := "Control" },
        { path := "/root/Game/VBoxContainer/StatusLabel", className := "Label" },
        { path := "/root/Game/VBoxContainer/GameBoard/GridContainer/Cell0", className := "Button" } ] }

/-- Modelled from the spec: the state of the tic-tac-toe example game
(`/root/Game`).  The game script itself (GDScript attached to the main
scene) ships with the example project but not with this source set; its
behaviour is pinned by the spec's end-to-end scenario (§8) and the
assertions of `tests/test_game.py`: nine cells holding `""`, `"X"` or
`"O"`, an alternating current player starting at `"X"`, an active flag
and the winning player's mark. -/
structure Game where
  board : List String
  currentPlayer : String
  gameActive : Bool
  winnerMark : String
deriving DecidableEq, Repr

/-- The fresh game: nine empty cells, `X` to move, game active, no
winner. -/
def newGame : Game :=
  { board := List.replicate 9 "", currentPlayer := "X",
    gameActive := true, winnerMark := "" }

/-- The mark held at cell `i` (empty string outside the board). -/
def cellAt (g : Game) (i : Nat) : String :=
  g.board.getD i ""

/-- The eight winning lines of the 3×3 board. -/
def winLines : List (Nat × Nat × Nat) :=
  [(0, 1, 2), (3, 4, 5), (6, 7, 8),
   (0, 3, 6), (1, 4, 7), (2, 5, 8),
   (0, 4, 8), (2, 4, 6)]

/-- Whether player `p` holds every cell of line `l`. -/
def lineWin (g : Game) (p : String) (l : Nat × Nat × Nat) : Bool :=
  cellAt g l.1 == p && cellAt g l.2.1 == p && cellAt g l.2.2 == p

/-- Whether player `p` has completed a winning line. -/
def hasWon (g : Game) (p : String) : Bool :=
  winLines.any (lineWin g p)

/-- Whether every cell of the board is occupied. -/
def boardFull (g : Game) : Bool :=
  g.board.all (fun c => c != "")

/-- Modelled from the spec: `call(root, "make_move", [i])` — place the
current player's mark at cell `i` if the game is active and the cell is
free, returning `true`; detect a win or a draw and otherwise pass the
turn; return `false` and leave the state untouched if the move is
illegal (occupied cell, finished game or index off the board). -/
def makeMove (g : Game) (i : Nat) : Bool × Game :=
  if !g.gameActive then (false, g)
  else if 9 ≤ i then (false, g)
  else if cellAt g i != "" then (false, g)
  else
    let g1 : Game := { g with board := g.board.set i g.currentPlayer }
    if hasWon g1 g.currentPlayer then
      (true, { g1 with gameActive := false, winnerMark := g.currentPlayer })
    else if boardFull g1 then
      (true, { g1 with gameActive := false })
    else
      (true, { g1 with currentPlayer :=
        if g.currentPlayer == "X" then "O" else "X" })

/-- Modelled from the spec: clicking cell `i` routes through the cell's
pressed handler, which attempts the move and ignores the result. -/
def clickCell (g : Game) (i : Nat) : Game :=
  (makeMove g i).2

/-- Modelled from the spec: the restart handler re-initialises the
board, the current player and the active flag. -/
def resetGame (_ : Game) : Game :=
  newGame

/-- Modelled from the spec: clicking the restart button triggers the
restart handler. -/
def clickRestart (g : Game) : Game :=
  resetGame g

/-- Modelled from the spec: the unhandled-key handler restarts the game
on the `"r"` key and ignores every other key. -/
def handleKey (g : Game) (key : String) : Game :=
  if key == "r" then resetGame g else g

/-- Apply a sequence of `make_move` calls in order. -/
def applyMoves (g : Game) (ms : List Nat) : Game :=
  ms.foldl clickCell g

/-- `call(root, "is_game_active")`. -/
def isGameActive (g : Game) : Bool :=
  g.gameActive

/-- `call(root, "get_winner")`. -/
def getWinner (g : Game) : String :=
  g.winnerMark

/-- `call(root, "get_board_state")`. -/
def getBoardState (g : Game) : List String :=
  g.board

/-- `call(root, "get_current_player")`. -/
def getCurrentPlayer (g : Game) : String :=
  g.currentPlayer

end PlayGodot

namespace PlayGodot

/-- C1: for every valid (non-empty) path `p`, `nodeExists(p) = true`
implies that `getNode(p)` succeeds and the returned NodeRef's path
equals `p`. -/
theorem nodeExists_true_getNode_ok (t : SceneTree) (p : String)
    (hp : p ≠ "") (he : nodeExists t p = true) :
    ∃ r : NodeRef, getNode t p = Except.ok r ∧ r.path = p := by
  unfold nodeExists at he
  rw [Option.isSome_iff_exists] at he
  obtain ⟨n, hn⟩ := he
  have hpath : n.path = p := by
    have := List.find?_some hn
    exact eq_of_beq this
  refine ⟨{ path := n.path, className := n.className }, ?_, hpath⟩
  unfold getNode
  rw [if_neg hp, hn]

/-- Witness for C1 on a concrete tree and path. -/
theorem nodeExists_true_getNode_ok_witness :
    ∃ r : NodeRef, getNode sampleTree "/root/Game" = Except.ok r ∧
      r.path = "/root/Game" :=
  nodeExists_true_getNode_ok sampleTree "/root/Game" (by decide) (by decide)

/-- C2: for every tree and every pattern (including one matching
nothing), `countNodes(pattern)` equals the length of
`queryNodes(pattern)`; both are total functions, so neither fails. -/
theorem countNodes_eq_length_queryNodes (t : SceneTree) (pat : String) :
    countNodes t pat = (queryNodes t pat).length := by
  unfold countNodes queryNodes
  exact List.countP_eq_length_filter _ _

/-- C3: for every `x > 0`, `setTimeScale(x)` succeeds and a subsequent
`getTimeScale()` returns exactly `x`. -/
theorem setTimeScale_roundTrip (s : EngineState) (x : ℚ) (hx : 0 < x) :
    (setTimeScale s x).1 = Except.ok () ∧
      getTimeScale (setTimeScale s x).2 = x := by
  unfold setTimeScale getTimeScale
  rw [if_neg (not_le.mpr hx)]
  exact ⟨rfl, rfl⟩

/-- Witness for C3 at the default engine state and factor 2. -/
theorem setTimeScale_roundTrip_witness :
    (setTimeScale defaultEngine 2).1 = Except.ok () ∧
      getTimeScale (setTimeScale defaultEngine 2).2 = 2 :=
  setTimeScale_roundTrip defaultEngine 2 (by norm_num)

/-- C4: for every factor `f ≤ 0`, `setTimeScale(f)` fails with
`InvalidTimeScale` and the time scale observed afterwards is unchanged
from its value before the failing call. -/
theorem setTimeScale_nonpos_fails (s : EngineState) (f : ℚ) (hf : f ≤ 0) :
    (setTimeScale s f).1 = Except.error AutoError.invalidTimeScale ∧
      getTimeScale (setTimeScale s f).2 = getTimeScale s := by
  unfold setTimeScale getTimeScale
  rw [if_pos hf]
  exact ⟨rfl, rfl⟩

/-- Witness for C4 at the default engine state and factor 0. -/
theorem setTimeScale_nonpos_fails_witness :
    (setTimeScale defaultEngine 0).1 = Except.error AutoError.invalidTimeScale ∧
      getTimeScale (setTimeScale defaultEngine 0).2 = getTimeScale defaultEngine :=
  setTimeScale_nonpos_fails defaultEngine 0 (by norm_num)

/-- C7: from a fresh game, the five alternating moves 0, 3, 1, 4, 2
complete the top row for the first player, after which
`is_game_active` returns false and `get_winner` returns the first
player's mark `"X"`. -/
theorem win_detection_five_moves :
    isGameActive (applyMoves newGame [0, 3, 1, 4, 2]) = false ∧
      getWinner (applyMoves newGame [0, 3, 1, 4, 2]) = "X" := by
  decide

/-- C8: on a fresh board every cell index accepts `make_move`: the call
returns true and places the current player's mark there; a second
`make_move` on the now-occupied index returns false and leaves that
cell unchanged. -/
theorem makeMove_fresh_then_occupied :
    ∀ i : Fin 9,
      (makeMove newGame i).1 = true ∧
      cellAt (makeMove newGame i).2 i = getCurrentPlayer newGame ∧
      (makeMove (makeMove newGame i).2 i).1 = false ∧
      cellAt (makeMove (makeMove newGame i).2 i).2 i =
        cellAt (makeMove newGame i).2 i := by
  decide

/-- C9: clicking an occupied cell changes neither the cell's mark nor
the turn: after X plays any cell of the fresh board and O clicks the
same cell, the cell still holds `"X"` and it is still O's turn. -/
theorem click_occupied_cell_no_effect :
    ∀ i : Fin 9,
      cellAt (clickCell (clickCell newGame i) i) i = "X" ∧
      getCurrentPlayer (clickCell (clickCell newGame i) i) = "O" := by
  decide

/-- C10: after any sequence of moves, a restart — via the restart
button or the `"r"` key — yields exactly the initial state: nine empty
cells, current player `"X"`, game active. -/
theorem restart_resets_game (ms : List Nat) :
    clickRestart (applyMoves newGame ms) = newGame ∧
      handleKey (applyMoves newGame ms) "r" = newGame ∧
      getBoardState newGame = ["", "", "", "", "", "", "", "", ""] ∧
      getCurrentPlayer newGame = "X" ∧
      isGameActive newGame = true := by
  refine ⟨rfl, ?_, by decide, rfl, rfl⟩
  unfold handleKey
  rw [if_pos (by decide)]
  rfl

end PlayGodot
